import Mathlib

/-!
Shallow embedding of the right-sizing reconciler and rule generator of the
multicluster-observability-addon repository. Go functions returning a
`(value, error)` pair are embedded as Lean functions returning a pair of the
value and an `Option String` error (with `none` standing for a nil error);
the external resource store is embedded as an explicit association-list state
threaded through the reconciler, and best-effort deletes additionally record a
trace of the delete calls issued, in order.
-/

namespace RightSizing

/-! ## Data model (internal/analytics/rightsizing/common, types file) -/

/-- The anonymous struct type of `RSPrometheusRuleConfig.NamespaceFilterCriteria`. -/
structure NamespaceFilterCriteria where
  InclusionCriteria : List String
  ExclusionCriteria : List String
deriving Repr, DecidableEq

/-- Go struct `RSLabelFilter`: label filtering criteria for right-sizing. -/
structure RSLabelFilter where
  LabelName : String
  InclusionCriteria : List String
  ExclusionCriteria : List String
deriving Repr, DecidableEq

/-- Go struct `RSPrometheusRuleConfig`. -/
structure RSPrometheusRuleConfig where
  NamespaceFilterCriteria : NamespaceFilterCriteria
  LabelFilterCriteria : List RSLabelFilter
  RecommendationPercentage : Int
deriving Repr, DecidableEq

/-- Opaque stand-in for `clusterv1beta1.Placement`, a pass-through payload
owned by the placement subsystem; no claim inspects its contents. -/
structure PlacementConfiguration where
  raw : String
deriving Repr, DecidableEq

/-- Go struct `RSNamespaceConfigMapData`. -/
structure RSNamespaceConfigMapData where
  PrometheusRuleConfig : RSPrometheusRuleConfig
  PlacementConfiguration : PlacementConfiguration
deriving Repr, DecidableEq

/-- Constant `DefaultRecommendationPercentage = 110`. -/
def DefaultRecommendationPercentage : Int := 110

/-- Constant `MonitoringNamespace`. -/
def MonitoringNamespace : String := "openshift-monitoring"

/-- Constant `DefaultNamespace`. -/
def DefaultNamespace : String := "open-cluster-management-global-set"

/-- Go type `ComponentType` (a string type). -/
abbrev ComponentType := String

/-- Constant `ComponentTypeNamespace`. -/
def ComponentTypeNamespace : ComponentType := "namespace"

/-- Constant `ComponentTypeVirtualization`. -/
def ComponentTypeVirtualization : ComponentType := "virtualization"

/-- Go func `GetDefaultRSPrometheusRuleConfig` (common/helper.go). -/
def GetDefaultRSPrometheusRuleConfig : RSPrometheusRuleConfig :=
  { NamespaceFilterCriteria :=
      { InclusionCriteria := [], ExclusionCriteria := ["openshift.*"] }
    LabelFilterCriteria := []
    RecommendationPercentage := DefaultRecommendationPercentage }

/-! ## Filter builders (common/helper.go) -/

/-- Go func `BuildNamespaceFilter` (common/helper.go lines 34-46): returns the
namespace selector string and a Go-style error. -/
def BuildNamespaceFilter (nsConfig : RSPrometheusRuleConfig) : String × Option String :=
  let ns := nsConfig.NamespaceFilterCriteria
  if ns.InclusionCriteria.length > 0 ∧ ns.ExclusionCriteria.length > 0 then
    ("", some "only one of inclusion or exclusion criteria allowed for namespacefiltercriteria")
  else if ns.InclusionCriteria.length > 0 then
    ("namespace=~\"" ++ String.intercalate "|" ns.InclusionCriteria ++ "\"", none)
  else if ns.ExclusionCriteria.length > 0 then
    ("namespace!~\"" ++ String.intercalate "|" ns.ExclusionCriteria ++ "\"", none)
  else
    ("namespace!=\"\"", none)

/-- Go func `BuildLabelJoin` (common/helper.go lines 49-68): the Go `for` loop
with `continue` becomes structural recursion on the filter list; an early
`return` inside the loop becomes returning without recursing. -/
def BuildLabelJoin : List RSLabelFilter → String × Option String
  | [] => ("", none)
  | l :: rest =>
    if l.LabelName ≠ "label_env" then
      BuildLabelJoin rest
    else if l.InclusionCriteria.length > 0 ∧ l.ExclusionCriteria.length > 0 then
      ("", some "only one of inclusion or exclusion allowed for label_env")
    else if l.InclusionCriteria.length > 0 then
      ("* on (namespace) group_left() (kube_namespace_labels\x7blabel_env=~\"" ++
        String.intercalate "|" l.InclusionCriteria ++
        "\"\x7d or kube_namespace_labels\x7blabel_env=\"\"\x7d)", none)
    else if l.ExclusionCriteria.length > 0 then
      ("* on (namespace) group_left() (kube_namespace_labels\x7blabel_env!~\"" ++
        String.intercalate "|" l.ExclusionCriteria ++
        "\"\x7d or kube_namespace_labels\x7blabel_env=\"\"\x7d)", none)
    else
      BuildLabelJoin rest

/-! ## Substring containment

Decidable substring containment, used to state textual properties of the
generated query expressions (mirroring the textual assertions of the
repository tests). -/

/-- Boolean test that `p` starts the character list `l`. -/
def startsWithChars : List Char → List Char → Bool
  | [], _ => true
  | _ :: _, [] => false
  | a :: as, b :: bs => a = b && startsWithChars as bs

/-- Boolean test that `need` occurs contiguously somewhere in the list. -/
def containsChars (need : List Char) : List Char → Bool
  | [] => startsWithChars need []
  | c :: t => startsWithChars need (c :: t) || containsChars need t

/-- Boolean test that the string `sub` occurs contiguously in `s`. -/
def strContains (s sub : String) : Bool :=
  containsChars sub.data s.data

/-! ## PrometheusRule document model (monitoringv1 fields used by the generator) -/

/-- A `monitoringv1.Rule`: a record name, an expression string (Go
`intstr.FromString`), and optional labels (Go nil map becomes `[]`). -/
structure Rule where
  Record : String
  Expr : String
  Labels : List (String × String)
deriving Repr, DecidableEq

/-- A `monitoringv1.RuleGroup`; the Go `Interval *Duration` pointer becomes an
`Option String`. -/
structure RuleGroup where
  Name : String
  Interval : Option String
  Rules : List Rule
deriving Repr, DecidableEq

/-- A `monitoringv1.PrometheusRuleSpec`. -/
structure PrometheusRuleSpec where
  Groups : List RuleGroup
deriving Repr, DecidableEq

/-- A `monitoringv1.PrometheusRule` restricted to the metadata fields the
generator sets (ObjectMeta name and namespace, TypeMeta kind and apiVersion). -/
structure PrometheusRule where
  Name : String
  Namespace : String
  Kind : String
  APIVersion : String
  Spec : PrometheusRuleSpec
deriving Repr, DecidableEq

/-- The Go zero value `monitoringv1.PrometheusRule{}` returned on error. -/
def emptyPrometheusRule : PrometheusRule := ⟨"", "", "", "", ⟨[]⟩⟩

/-! ## Virtualization rule generator (virtualization package, prometheusrule file) -/

/-- Constant `PrometheusRuleName` of the virtualization package. -/
def PrometheusRuleName : String := "acm-rs-virt-prometheus-rules"

/-- The `rule` closure of `GeneratePrometheusRule`, capturing `labelJoin`:
appends the label join clause to the metric expression when it is non-empty. -/
def ruleHelper (labelJoin record metricExpr : String) : Rule :=
  ⟨record, if labelJoin ≠ "" then metricExpr ++ " " ++ labelJoin else metricExpr, []⟩

/-- The `ruleWithLabels` closure of `GeneratePrometheusRule`: fixed
profile/aggregation labels on 1-day records. -/
def ruleWithLabels (record expr : String) : Rule :=
  ⟨record, expr, [("profile", "Max OverAll"), ("aggregation", "1d")]⟩

/-- Go func `buildNamespaceRules5m`; the raw-string literals are reproduced
byte for byte (including the newlines and tab indentation of the Go source),
with `%s` splices replaced by string concatenation of `nsFilter`. -/
def buildNamespaceRules5m (nsFilter : String) (rule : String → String → Rule) : List Rule :=
  [rule "acm_rs_vm:namespace:cpu_request:5m"
    ("max_over_time(sum (\n\t\t\t\t  (kubevirt_vm_resource_requests\x7b" ++ nsFilter ++
     ", unit=\"cores\", resource=\"cpu\"\x7d *\n\t\t\t\t  on(name,namespace,resource)\n\t\t\t\t  kubevirt_vm_resource_requests\x7b" ++ nsFilter ++
     ", unit=\"sockets\", resource=\"cpu\"\x7d *\n\t\t\t\t  on(name,namespace,resource)\n\t\t\t\t  kubevirt_vm_resource_requests\x7b" ++ nsFilter ++
     ", unit=\"threads\", resource=\"cpu\"\x7d)\n\t\t\t\t) by (name, namespace)[5m:])"),
   rule "acm_rs_vm:namespace:memory_request:5m"
    ("max_over_time(sum (\n\t\t\t\t  kubevirt_vm_resource_requests\x7b" ++ nsFilter ++
     ", resource=\"memory\"\x7d\n\t\t\t\t) by (name,namespace)[5m:])"),
   rule "acm_rs_vm:namespace:cpu_usage:5m"
    ("max_over_time(sum (\n\t\t\t\t  rate(kubevirt_vmi_cpu_usage_seconds_total\x7b" ++ nsFilter ++
     "\x7d[5m:])\n\t\t\t\t) by (name,namespace)[5m:])"),
   rule "acm_rs_vm:namespace:memory_usage:5m"
    ("max_over_time(sum (\n\t\t\t\t  kubevirt_vmi_memory_available_bytes\x7b" ++ nsFilter ++
     "\x7d -\n\t\t\t\t  kubevirt_vmi_memory_usable_bytes\x7b" ++ nsFilter ++
     "\x7d\n\t\t\t\t) by (name,namespace)[5m:])")]

/-- Go func `buildNamespaceRules1d`. -/
def buildNamespaceRules1d (configData : RSNamespaceConfigMapData)
    (rwl : String → String → Rule) : List Rule :=
  let rp := configData.PrometheusRuleConfig.RecommendationPercentage
  [rwl "acm_rs_vm:namespace:cpu_request" "max_over_time(acm_rs_vm:namespace:cpu_request:5m[1d])",
   rwl "acm_rs_vm:namespace:cpu_usage" "max_over_time(acm_rs_vm:namespace:cpu_usage:5m[1d])",
   rwl "acm_rs_vm:namespace:memory_request" "max_over_time(acm_rs_vm:namespace:memory_request:5m[1d])",
   rwl "acm_rs_vm:namespace:memory_usage" "max_over_time(acm_rs_vm:namespace:memory_usage:5m[1d])",
   rwl "acm_rs_vm:namespace:cpu_recommendation"
     ("max_over_time(acm_rs_vm:namespace:cpu_usage:5m[1d])*(" ++ toString rp ++ "/100)"),
   rwl "acm_rs_vm:namespace:memory_recommendation"
     ("max_over_time(acm_rs_vm:namespace:memory_usage:5m[1d])*(" ++ toString rp ++ "/100)")]

/-- Go func `buildClusterRules5m`. -/
def buildClusterRules5m (nsFilter : String) (rule : String → String → Rule) : List Rule :=
  [rule "acm_rs_vm:cluster:cpu_request:5m"
    ("max_over_time(sum (\n\t\t\t\t  (kubevirt_vm_resource_requests\x7b" ++ nsFilter ++
     ", unit=\"cores\", resource=\"cpu\"\x7d *\n\t\t\t\t  on(name,namespace,resource)\n\t\t\t\t  kubevirt_vm_resource_requests\x7b" ++ nsFilter ++
     ", unit=\"sockets\", resource=\"cpu\"\x7d *\n\t\t\t\t  on(name,namespace,resource)\n\t\t\t\t  kubevirt_vm_resource_requests\x7b" ++ nsFilter ++
     ", unit=\"threads\", resource=\"cpu\"\x7d)\n\t\t\t\t) by (cluster)[5m:])"),
   rule "acm_rs_vm:cluster:cpu_usage:5m"
    ("max_over_time(sum (\n\t\t\t\t  rate(kubevirt_vmi_cpu_usage_seconds_total\x7b" ++ nsFilter ++
     "\x7d[5m:])\n\t\t\t\t) by (cluster)[5m:])"),
   rule "acm_rs_vm:cluster:memory_request:5m"
    ("max_over_time(sum (\n\t\t\t\t  kubevirt_vm_resource_requests\x7b" ++ nsFilter ++
     ", resource=\"memory\"\x7d\n\t\t\t\t) by (cluster)[5m:])"),
   rule "acm_rs_vm:cluster:memory_usage:5m"
    ("max_over_time(sum (\n\t\t\t\t  kubevirt_vmi_memory_available_bytes\x7b" ++ nsFilter ++
     "\x7d -\n\t\t\t\t  kubevirt_vmi_memory_usable_bytes\x7b" ++ nsFilter ++
     "\x7d\n\t\t\t\t) by (cluster)[5m:])")]

/-- Go func `buildClusterRules1d`. -/
def buildClusterRules1d (configData : RSNamespaceConfigMapData)
    (rwl : String → String → Rule) : List Rule :=
  let rp := configData.PrometheusRuleConfig.RecommendationPercentage
  [rwl "acm_rs_vm:cluster:cpu_request" "max_over_time(acm_rs_vm:cluster:cpu_request:5m[1d])",
   rwl "acm_rs_vm:cluster:cpu_usage" "max_over_time(acm_rs_vm:cluster:cpu_usage:5m[1d])",
   rwl "acm_rs_vm:cluster:cpu_recommendation"
     ("max_over_time(acm_rs_vm:cluster:cpu_usage:5m[1d]) * (" ++ toString rp ++ "/100)"),
   rwl "acm_rs_vm:cluster:memory_request" "max_over_time(acm_rs_vm:cluster:memory_request:5m[1d])",
   rwl "acm_rs_vm:cluster:memory_usage" "max_over_time(acm_rs_vm:cluster:memory_usage:5m[1d])",
   rwl "acm_rs_vm:cluster:memory_recommendation"
     ("max_over_time(acm_rs_vm:cluster:memory_usage:5m[1d]) * (" ++ toString rp ++ "/100)")]

/-- Go func `GeneratePrometheusRule` of the virtualization package: builds the
four-group PrometheusRule document, or returns the zero document together with
the validation error of a filter builder. -/
def GeneratePrometheusRule (configData : RSNamespaceConfigMapData) : PrometheusRule × Option String :=
  match BuildNamespaceFilter configData.PrometheusRuleConfig with
  | (_, some err) => (emptyPrometheusRule, some err)
  | (nsFilter, none) =>
    match BuildLabelJoin configData.PrometheusRuleConfig.LabelFilterCriteria with
    | (_, some err) => (emptyPrometheusRule, some err)
    | (labelJoin, none) =>
      let duration5m := "5m"
      let duration1d := "15m"
      ({ Name := PrometheusRuleName
         Namespace := MonitoringNamespace
         Kind := "PrometheusRule"
         APIVersion := "monitoring.coreos.com/v1"
         Spec := ⟨[
           ⟨"acm-vm-right-sizing-namespace-5m.rule", some duration5m,
             buildNamespaceRules5m nsFilter (ruleHelper labelJoin)⟩,
           ⟨"acm-vm-right-sizing-namespace-1d.rules", some duration1d,
             buildNamespaceRules1d configData ruleWithLabels⟩,
           ⟨"acm-vm-right-sizing-cluster-5m.rule", some duration5m,
             buildClusterRules5m nsFilter (ruleHelper labelJoin)⟩,
           ⟨"acm-vm-right-sizing-cluster-1d.rule", some duration1d,
             buildClusterRules1d configData ruleWithLabels⟩]⟩ }, none)

/-! ## Resource store model and reconciler (common/component.go, common/addon.go)

The external resource store is modelled as an association list from typed
resource keys to configmap-style payloads (non-configmap resources carry an
empty payload); gets, creates and best-effort deletes are the only primitives
the embedded code uses. -/

/-- Identity of a stored resource: its kind, name and namespace
(cluster-scoped resources use the empty namespace). -/
structure ResKey where
  kind : String
  name : String
  ns : String
deriving Repr, DecidableEq

/-- The external resource store: an association list from resource keys to
`map[string]string`-style payloads. -/
abbrev Store := List (ResKey × List (String × String))

/-- Get-by-key: `none` is the distinguished not-found condition. -/
def storeGet : Store → ResKey → Option (List (String × String))
  | [], _ => none
  | e :: t, k => if e.1 = k then some e.2 else storeGet t k

/-- Create a record (used only when the key is absent). -/
def storeCreate (st : Store) (k : ResKey) (v : List (String × String)) : Store :=
  st ++ [(k, v)]

/-- Best-effort delete-by-key: removing an absent key is a no-op, never an
error (Go swallows `IsNotFound`). -/
def storeDelete : Store → ResKey → Store
  | [], _ => []
  | e :: t, k => if e.1 = k then storeDelete t k else e :: storeDelete t k

/-- Go struct `ComponentConfig` (current snapshot: addon-based deployment
fields; the two function-valued fields model the Go callbacks, with
`ApplyChangesFunc` acting on the store and returning a Go-style error). -/
structure ComponentConfig where
  ComponentType : ComponentType
  ConfigMapName : String
  PlacementName : String
  DefaultNamespace : String
  GetDefaultConfigFunc : Unit → List (String × String)
  ApplyChangesFunc : RSNamespaceConfigMapData → Store → Option String × Store
  AddonName : String
  TemplateName : String

/-- Go struct `ComponentState`. -/
structure ComponentState where
  Namespace : String
  Enabled : Bool
deriving Repr, DecidableEq

/-- Go struct `RightSizingOptions`. -/
structure RightSizingOptions where
  NamespaceEnabled : Bool
  NamespaceBinding : String
  VirtualizationEnabled : Bool
  VirtualizationBinding : String
  ConfigNamespace : String
deriving Repr, DecidableEq

/-- Go func `CleanupRightSizingAddon` (common/addon.go lines 259-302): deletes
the ClusterManagementAddOn, then the AddOnTemplate, then the Placement, each
best-effort; returns the updated store and the ordered delete trace. -/
def CleanupRightSizingAddon (addonName templateName placementName placementNamespace : String)
    (st : Store) : Store × List ResKey :=
  let k1 : ResKey := ⟨"ClusterManagementAddOn", addonName, ""⟩
  let k2 : ResKey := ⟨"AddOnTemplate", templateName, ""⟩
  let k3 : ResKey := ⟨"Placement", placementName, placementNamespace⟩
  (storeDelete (storeDelete (storeDelete st k1) k2) k3, [k1, k2, k3])

/-- Go func `CleanupComponentResources` (common/component.go lines 114-164):
addon resources first via `CleanupRightSizingAddon`, then the ConfigMap, the
latter only when `bindingUpdated` is false. -/
def CleanupComponentResources (componentConfig : ComponentConfig)
    (ns configNamespace : String) (bindingUpdated : Bool) (st : Store) :
    Store × List ResKey :=
  let r1 := CleanupRightSizingAddon componentConfig.AddonName
    componentConfig.TemplateName componentConfig.PlacementName ns st
  if bindingUpdated then
    r1
  else
    let k : ResKey := ⟨"ConfigMap", componentConfig.ConfigMapName, configNamespace⟩
    (storeDelete r1.1 k, r1.2 ++ [k])

/-- Modelled from the spec: `EnsureRSConfigMapExists` is not among the
provided source files (only its callers are). Per the spec it ensures the
configuration record exists at its fixed location, seeding it with the
component default payload when absent and never overwriting an existing
record; store failures do not arise in this model. -/
def EnsureRSConfigMapExists (name configNamespace : String)
    (getDefault : Unit → List (String × String)) (st : Store) : Option String × Store :=
  let k : ResKey := ⟨"ConfigMap", name, configNamespace⟩
  match storeGet st k with
  | some _ => (none, st)
  | none => (none, storeCreate st k (getDefault ()))

/-- Go func `HandleComponentRightSizing` (common/component.go lines 20-110).
The `decode` parameter models `GetRSConfigData` (modelled from the spec: the
decoder of the configuration record is not among the provided source files;
per the spec, decoding may fail and a failure aborts the attempt). The result
is the returned Go error, the final component state, the final store, and the
ordered trace of cleanup delete calls issued by this reconciliation. -/
def HandleComponentRightSizing
    (decode : List (String × String) → Except String RSNamespaceConfigMapData)
    (opts : RightSizingOptions) (componentConfig : ComponentConfig)
    (state : ComponentState) (st : Store) :
    Option String × ComponentState × Store × List ResKey :=
  let sel : Option (Bool × String) :=
    if componentConfig.ComponentType = ComponentTypeNamespace then
      some (opts.NamespaceEnabled, opts.NamespaceBinding)
    else if componentConfig.ComponentType = ComponentTypeVirtualization then
      some (opts.VirtualizationEnabled, opts.VirtualizationBinding)
    else none
  match sel with
  | none => (some ("unknown component type: " ++ componentConfig.ComponentType), state, st, [])
  | some (isEnabled, binding) =>
    let newBinding := if binding = "" then componentConfig.DefaultNamespace else binding
    if !isEnabled then
      let r :=
        CleanupComponentResources componentConfig state.Namespace opts.ConfigNamespace false st
      (none, ⟨newBinding, false⟩, r.1, r.2)
    else
      let namespaceBindingUpdated := state.Namespace ≠ newBinding ∧ state.Enabled = true
      let existingNamespace := state.Namespace
      let state1 : ComponentState := ⟨newBinding, true⟩
      match EnsureRSConfigMapExists componentConfig.ConfigMapName opts.ConfigNamespace
          componentConfig.GetDefaultConfigFunc st with
      | (some e, stE) => (some e, state1, stE, [])
      | (none, stE) =>
        let cu :=
          if namespaceBindingUpdated then
            CleanupComponentResources componentConfig existingNamespace opts.ConfigNamespace true stE
          else (stE, [])
        match storeGet cu.1 ⟨"ConfigMap", componentConfig.ConfigMapName, opts.ConfigNamespace⟩ with
        | none => (some "rs - failed to get existing configmap", state1, cu.1, cu.2)
        | some data =>
          match decode data with
          | .error e => (some ("rs - failed to extract config data: " ++ e), state1, cu.1, cu.2)
          | .ok configData =>
            match componentConfig.ApplyChangesFunc configData cu.1 with
            | (some e, st3) => (some ("rs - failed to apply configmap changes: " ++ e), state1, st3, cu.2)
            | (none, st3) => (none, state1, st3, cu.2)

/-- A concrete component wiring used to instantiate universally quantified
theorems at closed inputs (the names are those of the virtualization
component). -/
def exampleComponentConfig : ComponentConfig :=
  { ComponentType := ComponentTypeVirtualization
    ConfigMapName := "rs-virt-config"
    PlacementName := "rs-virt-placement"
    DefaultNamespace := DefaultNamespace
    GetDefaultConfigFunc := fun _ => [("prometheusRuleConfig", "default")]
    ApplyChangesFunc := fun _ s => (none, s)
    AddonName := "observability-rightsizing-virtualization"
    TemplateName := "rs-virt-template" }

/-- A trivial decoder used to instantiate theorems at closed inputs. -/
def exampleDecode : List (String × String) → Except String RSNamespaceConfigMapData :=
  fun _ => .ok ⟨GetDefaultRSPrometheusRuleConfig, ⟨""⟩⟩

/-! ## Helper lemmas: substring containment -/

theorem startsWithChars_append (n s : List Char) : startsWithChars n (n ++ s) = true := by
  induction n with
  | nil => rfl
  | cons a as ih => simp [startsWithChars, ih]

theorem startsWithChars_extend (n a b : List Char)
    (h : startsWithChars n a = true) : startsWithChars n (a ++ b) = true := by
  induction n generalizing a with
  | nil => rfl
  | cons x xs ih =>
    cases a with
    | nil => simp [startsWithChars] at h
    | cons y ys =>
      simp only [startsWithChars, Bool.and_eq_true] at h
      simp [startsWithChars, h.1, ih ys h.2]

theorem containsChars_append_left (n a b : List Char)
    (h : containsChars n b = true) : containsChars n (a ++ b) = true := by
  induction a with
  | nil => simpa using h
  | cons c t ih => simp [containsChars, ih]

theorem containsChars_append_right (n a b : List Char)
    (h : containsChars n a = true) : containsChars n (a ++ b) = true := by
  induction a with
  | nil =>
    cases n with
    | nil => cases b with
      | nil => simpa using h
      | cons c t => simp [containsChars, startsWithChars]
    | cons x xs => simp [containsChars, startsWithChars] at h
  | cons c t ih =>
    simp only [containsChars, Bool.or_eq_true] at h ⊢
    rcases h with h | h
    · exact Or.inl (startsWithChars_extend _ _ _ h)
    · exact Or.inr (ih h)

theorem containsChars_infix (p n s : List Char) : containsChars n (p ++ (n ++ s)) = true := by
  apply containsChars_append_left
  cases n with
  | nil => cases s with
    | nil => rfl
    | cons c t => simp [containsChars, startsWithChars]
  | cons x xs =>
    have h := startsWithChars_append (x :: xs) s
    simp only [List.cons_append] at h
    simp [containsChars, h]

theorem strContains_append_left (a b n : String)
    (h : strContains b n = true) : strContains (a ++ b) n = true := by
  simpa [strContains, String.data_append] using containsChars_append_left n.data a.data b.data h

theorem strContains_append_right (a b n : String)
    (h : strContains a n = true) : strContains (a ++ b) n = true := by
  simpa [strContains, String.data_append] using containsChars_append_right n.data a.data b.data h

theorem strContains_decomp (p n s : String) : strContains (p ++ (n ++ s)) n = true := by
  simpa [strContains, String.data_append] using containsChars_infix p.data n.data s.data

/-- Containment lifted through the `rule` closure: the label join clause is
appended on the right, so any substring of the metric expression is a
substring of the final expression. -/
theorem strContains_ruleHelper (lj rec m n : String) (h : strContains m n = true) :
    strContains (ruleHelper lj rec m).Expr n = true := by
  show strContains (if lj ≠ "" then m ++ " " ++ lj else m) n = true
  by_cases hlj : lj = ""
  · simpa [hlj] using h
  · simpa [hlj] using strContains_append_right _ _ _ (strContains_append_right _ _ _ h)

/-! ## Helper lemmas: the store -/

theorem storeGet_storeDelete (st : Store) (k q : ResKey) :
    storeGet (storeDelete st k) q = if q = k then none else storeGet st q := by
  induction st with
  | nil => simp [storeGet, storeDelete]
  | cons e t ih =>
    by_cases hek : e.1 = k
    · by_cases hq : q = k
      · subst hq
        simp [storeDelete, hek, ih]
      · simp [storeDelete, storeGet, hek, hq, ih, show ¬ k = q from fun h => hq h.symm]
    · by_cases heq : e.1 = q
      · have hq : ¬ q = k := fun hh => hek (heq.symm ▸ hh)
        simp [storeDelete, storeGet, hek, heq, hq]
      · simp [storeDelete, storeGet, hek, heq, ih]

theorem storeDelete_absent (st : Store) (k : ResKey) (h : storeGet st k = none) :
    storeDelete st k = st := by
  induction st with
  | nil => rfl
  | cons e t ih =>
    by_cases hek : e.1 = k
    · simp [storeGet, hek] at h
    · simp only [storeGet, hek, if_neg, if_false] at h
      simp [storeDelete, hek, ih h]

example : strContains "hello world" "lo w" = true := by decide

example : strContains "hello world" "low" = false := by decide

/-! ## Helper lemmas: the label-join scan -/

/-- A scanned entry is skipped when its label name is not the recognized one,
or when it carries no criteria at all. -/
theorem buildLabelJoin_skip (x : RSLabelFilter) (rest : List RSLabelFilter)
    (h : x.LabelName ≠ "label_env" ∨ (x.InclusionCriteria = [] ∧ x.ExclusionCriteria = [])) :
    BuildLabelJoin (x :: rest) = BuildLabelJoin rest := by
  rcases h with h | ⟨h1, h2⟩
  · simp [BuildLabelJoin, h]
  · by_cases hx : x.LabelName = "label_env"
    · simp [BuildLabelJoin, hx, h1, h2]
    · simp [BuildLabelJoin, hx]

/-- Skipped entries anywhere in the list never influence the scan result. -/
theorem buildLabelJoin_skip_append (pre : List RSLabelFilter) (l : RSLabelFilter)
    (post : List RSLabelFilter)
    (h : l.LabelName ≠ "label_env" ∨ (l.InclusionCriteria = [] ∧ l.ExclusionCriteria = [])) :
    BuildLabelJoin (pre ++ l :: post) = BuildLabelJoin (pre ++ post) := by
  induction pre with
  | nil => simpa using buildLabelJoin_skip l post h
  | cons x t ih =>
    by_cases hx : x.LabelName = "label_env"
    · by_cases hb : x.InclusionCriteria.length > 0 ∧ x.ExclusionCriteria.length > 0
      · simp [BuildLabelJoin, hx, hb]
      · by_cases hi : x.InclusionCriteria.length > 0
        · simp [BuildLabelJoin, hx, hb, hi]
        · by_cases he : x.ExclusionCriteria.length > 0
          · simp [BuildLabelJoin, hx, hb, hi, he]
          · simp [BuildLabelJoin, hx, hb, hi, he, ih]
    · simp [BuildLabelJoin, hx, ih]

/-- A run of entries that are all skipped can be dropped from the front. -/
theorem buildLabelJoin_skipAll (pre rest : List RSLabelFilter)
    (hpre : ∀ x ∈ pre, x.LabelName = "label_env" →
      x.InclusionCriteria = [] ∧ x.ExclusionCriteria = []) :
    BuildLabelJoin (pre ++ rest) = BuildLabelJoin rest := by
  induction pre with
  | nil => rfl
  | cons x t ih =>
    have hx : x.LabelName ≠ "label_env" ∨
        (x.InclusionCriteria = [] ∧ x.ExclusionCriteria = []) := by
      by_cases h : x.LabelName = "label_env"
      · exact Or.inr (hpre x (by simp) h)
      · exact Or.inl h
    rw [List.cons_append, buildLabelJoin_skip x (t ++ rest) hx]
    exact ih (fun y hy => hpre y (by simp [hy]))

/-- The scan stops with a validation error at a recognized entry carrying both
criteria lists. -/
theorem buildLabelJoin_conflict (l : RSLabelFilter) (rest : List RSLabelFilter)
    (hx : l.LabelName = "label_env") (hi : l.InclusionCriteria ≠ [])
    (he : l.ExclusionCriteria ≠ []) :
    BuildLabelJoin (l :: rest) =
      ("", some "only one of inclusion or exclusion allowed for label_env") := by
  simp [BuildLabelJoin, hx, List.length_pos.mpr hi, List.length_pos.mpr he]

/-- The scan stops with the inclusion join clause at a recognized entry
carrying only inclusion criteria. -/
theorem buildLabelJoin_inclusion (l : RSLabelFilter) (rest : List RSLabelFilter)
    (hx : l.LabelName = "label_env") (hi : l.InclusionCriteria ≠ [])
    (he : l.ExclusionCriteria = []) :
    BuildLabelJoin (l :: rest) =
      ("* on (namespace) group_left() (kube_namespace_labels\x7blabel_env=~\"" ++
        String.intercalate "|" l.InclusionCriteria ++
        "\"\x7d or kube_namespace_labels\x7blabel_env=\"\"\x7d)", none) := by
  simp [BuildLabelJoin, hx, List.length_pos.mpr hi, he]

/-- The scan stops with the exclusion join clause at a recognized entry
carrying only exclusion criteria. -/
theorem buildLabelJoin_exclusion (l : RSLabelFilter) (rest : List RSLabelFilter)
    (hx : l.LabelName = "label_env") (hi : l.InclusionCriteria = [])
    (he : l.ExclusionCriteria ≠ []) :
    BuildLabelJoin (l :: rest) =
      ("* on (namespace) group_left() (kube_namespace_labels\x7blabel_env!~\"" ++
        String.intercalate "|" l.ExclusionCriteria ++
        "\"\x7d or kube_namespace_labels\x7blabel_env=\"\"\x7d)", none) := by
  simp [BuildLabelJoin, hx, hi, List.length_pos.mpr he]

/-! ## Claim C5 -/

/-- C5: `BuildNamespaceFilter` returns the positive regex alternation
`namespace=~"<entries joined by |>"` when only inclusion criteria are present,
the negative alternation `namespace!~"..."` when only exclusion criteria are
present, and the presence filter `namespace!=""` when both lists are empty;
the alternation joins the entries verbatim with `|` (no escaping, no
deduplication). -/
theorem C5_buildNamespaceFilter_cases (cfg : RSPrometheusRuleConfig) :
    (cfg.NamespaceFilterCriteria.InclusionCriteria ≠ [] →
      cfg.NamespaceFilterCriteria.ExclusionCriteria = [] →
      BuildNamespaceFilter cfg =
        ("namespace=~\"" ++
          String.intercalate "|" cfg.NamespaceFilterCriteria.InclusionCriteria ++ "\"", none)) ∧
    (cfg.NamespaceFilterCriteria.InclusionCriteria = [] →
      cfg.NamespaceFilterCriteria.ExclusionCriteria ≠ [] →
      BuildNamespaceFilter cfg =
        ("namespace!~\"" ++
          String.intercalate "|" cfg.NamespaceFilterCriteria.ExclusionCriteria ++ "\"", none)) ∧
    (cfg.NamespaceFilterCriteria.InclusionCriteria = [] →
      cfg.NamespaceFilterCriteria.ExclusionCriteria = [] →
      BuildNamespaceFilter cfg = ("namespace!=\"\"", none)) := by
  refine ⟨fun h1 h2 => ?_, fun h1 h2 => ?_, fun h1 h2 => ?_⟩
  · simp [BuildNamespaceFilter, List.length_pos.mpr h1, h2]
  · simp [BuildNamespaceFilter, h1, List.length_pos.mpr h2]
  · simp [BuildNamespaceFilter, h1, h2]

/-- C5 witness: inclusion-only instance evaluated at a concrete input. -/
theorem C5_witness :
    BuildNamespaceFilter ⟨⟨["my-app-.*", "production-.*"], []⟩, [], 110⟩ =
      ("namespace=~\"my-app-.*|production-.*\"", none) := by
  have h := (C5_buildNamespaceFilter_cases ⟨⟨["my-app-.*", "production-.*"], []⟩, [], 110⟩).1
    (by decide) rfl
  rw [h]
  decide

/-! ## Claim C2 -/

/-- C2 counterexample: the claim says the scan keys on the first entry whose
`labelName` is `label_env` and returns the empty string when that entry has
neither criterion; but the code skips such an entry and keeps scanning, so on
`[⟨label_env, [], []⟩, ⟨label_env, [prod], []⟩]` it returns a non-empty join
clause instead of `("", none)`. -/
theorem C2_counterexample_skips_empty_entry :
    BuildLabelJoin [⟨"label_env", [], []⟩, ⟨"label_env", ["prod"], []⟩] ≠ ("", none) := by
  decide

/-- C2 (amended): the scan skips entries whose `labelName` differs from the
recognized key `label_env` and also recognized entries with neither criterion
present; at the first `label_env` entry with at least one non-empty criteria
list it stops: with both lists non-empty it returns a validation error, with
only inclusion (resp. exclusion) it returns the join clause
`* on (namespace) group_left() (kube_namespace_labels{label_env=~"..."} or
kube_namespace_labels{label_env=""})` (with `!~` for exclusion) so that
namespaces with an absent label still match the empty bucket; with no such
entry it returns the empty string; entries with any other `labelName` never
influence the output. -/
theorem C2_amended_labelJoin_scan (l : RSLabelFilter) (pre post : List RSLabelFilter) :
    (BuildLabelJoin ([] : List RSLabelFilter) = ("", none)) ∧
    (l.LabelName ≠ "label_env" →
      BuildLabelJoin (pre ++ l :: post) = BuildLabelJoin (pre ++ post)) ∧
    (l.LabelName = "label_env" → l.InclusionCriteria = [] → l.ExclusionCriteria = [] →
      BuildLabelJoin (pre ++ l :: post) = BuildLabelJoin (pre ++ post)) ∧
    (l.LabelName = "label_env" → l.InclusionCriteria ≠ [] → l.ExclusionCriteria ≠ [] →
      BuildLabelJoin (l :: post) =
        ("", some "only one of inclusion or exclusion allowed for label_env")) ∧
    (l.LabelName = "label_env" → l.InclusionCriteria ≠ [] → l.ExclusionCriteria = [] →
      BuildLabelJoin (l :: post) =
        ("* on (namespace) group_left() (kube_namespace_labels\x7blabel_env=~\"" ++
          String.intercalate "|" l.InclusionCriteria ++
          "\"\x7d or kube_namespace_labels\x7blabel_env=\"\"\x7d)", none)) ∧
    (l.LabelName = "label_env" → l.InclusionCriteria = [] → l.ExclusionCriteria ≠ [] →
      BuildLabelJoin (l :: post) =
        ("* on (namespace) group_left() (kube_namespace_labels\x7blabel_env!~\"" ++
          String.intercalate "|" l.ExclusionCriteria ++
          "\"\x7d or kube_namespace_labels\x7blabel_env=\"\"\x7d)", none)) ∧
    (strContains (BuildLabelJoin [⟨"label_env", ["prod", "staging"], []⟩]).1
      "label_env=~\"prod|staging\"" = true) ∧
    (strContains (BuildLabelJoin [⟨"label_env", ["prod", "staging"], []⟩]).1
      "label_env=\"\"" = true) ∧
    (strContains (BuildLabelJoin [⟨"label_env", ["prod", "staging"], []⟩]).1
      "on (namespace) group_left()" = true) := by
  refine ⟨rfl, fun h => ?_, fun hx h1 h2 => ?_, fun hx h1 h2 => ?_, fun hx h1 h2 => ?_,
    fun hx h1 h2 => ?_, by decide, by decide, by decide⟩
  · exact buildLabelJoin_skip_append pre l post (Or.inl h)
  · exact buildLabelJoin_skip_append pre l post (Or.inr ⟨h1, h2⟩)
  · exact buildLabelJoin_conflict l post hx h1 h2
  · exact buildLabelJoin_inclusion l post hx h1 h2
  · exact buildLabelJoin_exclusion l post hx h1 h2

/-- C2 witness: the amended inclusion case evaluated at a concrete input. -/
theorem C2_witness :
    BuildLabelJoin [⟨"label_env", ["prod", "staging"], []⟩] =
      ("* on (namespace) group_left() (kube_namespace_labels\x7blabel_env=~\"prod|staging\"\x7d or kube_namespace_labels\x7blabel_env=\"\"\x7d)",
       none) := by
  have h := (C2_amended_labelJoin_scan ⟨"label_env", ["prod", "staging"], []⟩ [] []).2.2.2.2.1
    rfl (by decide) rfl
  rw [h]
  decide

/-! ## Claim C1 -/

/-- C1: when both inclusion and exclusion criteria are non-empty on the
namespace filter, or both are non-empty on the recognized `label_env` entry
(the first `label_env` entry the scan does not skip), `GeneratePrometheusRule`
returns a validation error together with the zero PrometheusRule value, whose
group list is empty (no partial document). -/
theorem C1_conflict_error_empty_document (cfg : RSNamespaceConfigMapData)
    (h :
      (cfg.PrometheusRuleConfig.NamespaceFilterCriteria.InclusionCriteria ≠ [] ∧
       cfg.PrometheusRuleConfig.NamespaceFilterCriteria.ExclusionCriteria ≠ []) ∨
      (∃ pre l post,
        cfg.PrometheusRuleConfig.LabelFilterCriteria = pre ++ l :: post ∧
        l.LabelName = "label_env" ∧
        l.InclusionCriteria ≠ [] ∧ l.ExclusionCriteria ≠ [] ∧
        ∀ x ∈ pre, x.LabelName = "label_env" →
          x.InclusionCriteria = [] ∧ x.ExclusionCriteria = [])) :
    (∃ e, GeneratePrometheusRule cfg = (emptyPrometheusRule, some e)) ∧
    emptyPrometheusRule.Spec.Groups = [] := by
  refine ⟨?_, rfl⟩
  rcases h with ⟨h1, h2⟩ | ⟨pre, l, post, heq, hx, hi, he, hpre⟩
  · refine ⟨"only one of inclusion or exclusion criteria allowed for namespacefiltercriteria", ?_⟩
    have hb : BuildNamespaceFilter cfg.PrometheusRuleConfig =
        ("", some "only one of inclusion or exclusion criteria allowed for namespacefiltercriteria") := by
      simp [BuildNamespaceFilter, List.length_pos.mpr h1, List.length_pos.mpr h2]
    simp [GeneratePrometheusRule, hb]
  · have hjoin : BuildLabelJoin cfg.PrometheusRuleConfig.LabelFilterCriteria =
        ("", some "only one of inclusion or exclusion allowed for label_env") := by
      rw [heq, buildLabelJoin_skipAll pre (l :: post) hpre]
      exact buildLabelJoin_conflict l post hx hi he
    rcases hbnf : BuildNamespaceFilter cfg.PrometheusRuleConfig with ⟨s, oe⟩
    cases oe with
    | some e => exact ⟨e, by simp [GeneratePrometheusRule, hbnf]⟩
    | none =>
      exact ⟨"only one of inclusion or exclusion allowed for label_env",
        by simp [GeneratePrometheusRule, hbnf, hjoin]⟩

/-- Closed-form evaluation of the generator on a valid configuration. -/
theorem generate_valid_eq (cfg : RSNamespaceConfigMapData) (nsF lj : String)
    (h1 : BuildNamespaceFilter cfg.PrometheusRuleConfig = (nsF, none))
    (h2 : BuildLabelJoin cfg.PrometheusRuleConfig.LabelFilterCriteria = (lj, none)) :
    GeneratePrometheusRule cfg =
      ({ Name := PrometheusRuleName
         Namespace := MonitoringNamespace
         Kind := "PrometheusRule"
         APIVersion := "monitoring.coreos.com/v1"
         Spec := ⟨[
           ⟨"acm-vm-right-sizing-namespace-5m.rule", some "5m",
             buildNamespaceRules5m nsF (ruleHelper lj)⟩,
           ⟨"acm-vm-right-sizing-namespace-1d.rules", some "15m",
             buildNamespaceRules1d cfg ruleWithLabels⟩,
           ⟨"acm-vm-right-sizing-cluster-5m.rule", some "5m",
             buildClusterRules5m nsF (ruleHelper lj)⟩,
           ⟨"acm-vm-right-sizing-cluster-1d.rule", some "15m",
             buildClusterRules1d cfg ruleWithLabels⟩]⟩ }, none) := by
  simp only [GeneratePrometheusRule, h1, h2]

/-- The cpu-request metric template multiplies three
`kubevirt_vm_resource_requests` selectors (units cores, sockets, threads),
whatever the namespace filter `f` and tail `t` are. -/
theorem cpuRequestContains (f t : String)
    (ht : strContains t ", unit=\"threads\", resource=\"cpu\"\x7d)" = true) :
    (strContains
      ("max_over_time(sum (\n\t\t\t\t  (kubevirt_vm_resource_requests\x7b" ++ f ++
       ", unit=\"cores\", resource=\"cpu\"\x7d *\n\t\t\t\t  on(name,namespace,resource)\n\t\t\t\t  kubevirt_vm_resource_requests\x7b" ++ f ++
       ", unit=\"sockets\", resource=\"cpu\"\x7d *\n\t\t\t\t  on(name,namespace,resource)\n\t\t\t\t  kubevirt_vm_resource_requests\x7b" ++ f ++ t)
      "kubevirt_vm_resource_requests\x7b" = true) ∧
    (strContains
      ("max_over_time(sum (\n\t\t\t\t  (kubevirt_vm_resource_requests\x7b" ++ f ++
       ", unit=\"cores\", resource=\"cpu\"\x7d *\n\t\t\t\t  on(name,namespace,resource)\n\t\t\t\t  kubevirt_vm_resource_requests\x7b" ++ f ++
       ", unit=\"sockets\", resource=\"cpu\"\x7d *\n\t\t\t\t  on(name,namespace,resource)\n\t\t\t\t  kubevirt_vm_resource_requests\x7b" ++ f ++ t)
      ", unit=\"cores\", resource=\"cpu\"\x7d *" = true) ∧
    (strContains
      ("max_over_time(sum (\n\t\t\t\t  (kubevirt_vm_resource_requests\x7b" ++ f ++
       ", unit=\"cores\", resource=\"cpu\"\x7d *\n\t\t\t\t  on(name,namespace,resource)\n\t\t\t\t  kubevirt_vm_resource_requests\x7b" ++ f ++
       ", unit=\"sockets\", resource=\"cpu\"\x7d *\n\t\t\t\t  on(name,namespace,resource)\n\t\t\t\t  kubevirt_vm_resource_requests\x7b" ++ f ++ t)
      ", unit=\"sockets\", resource=\"cpu\"\x7d *" = true) ∧
    (strContains
      ("max_over_time(sum (\n\t\t\t\t  (kubevirt_vm_resource_requests\x7b" ++ f ++
       ", unit=\"cores\", resource=\"cpu\"\x7d *\n\t\t\t\t  on(name,namespace,resource)\n\t\t\t\t  kubevirt_vm_resource_requests\x7b" ++ f ++
       ", unit=\"sockets\", resource=\"cpu\"\x7d *\n\t\t\t\t  on(name,namespace,resource)\n\t\t\t\t  kubevirt_vm_resource_requests\x7b" ++ f ++ t)
      ", unit=\"threads\", resource=\"cpu\"\x7d)" = true) := by
  refine ⟨?_, ?_, ?_, ?_⟩
  · apply strContains_append_right
    apply strContains_append_right
    apply strContains_append_right
    apply strContains_append_right
    apply strContains_append_right
    apply strContains_append_right
    decide
  · apply strContains_append_right
    apply strContains_append_right
    apply strContains_append_right
    apply strContains_append_right
    apply strContains_append_left
    decide
  · apply strContains_append_right
    apply strContains_append_right
    apply strContains_append_left
    decide
  · exact strContains_append_left _ _ _ ht

/-- The memory-usage metric template subtracts the usable-bytes counter from
the available-bytes counter, whatever the namespace filter `f` and tail `t`. -/
theorem memUsageContains (f t : String) :
    (strContains
      ("max_over_time(sum (\n\t\t\t\t  kubevirt_vmi_memory_available_bytes\x7b" ++ f ++
       "\x7d -\n\t\t\t\t  kubevirt_vmi_memory_usable_bytes\x7b" ++ f ++ t)
      "kubevirt_vmi_memory_available_bytes\x7b" = true) ∧
    (strContains
      ("max_over_time(sum (\n\t\t\t\t  kubevirt_vmi_memory_available_bytes\x7b" ++ f ++
       "\x7d -\n\t\t\t\t  kubevirt_vmi_memory_usable_bytes\x7b" ++ f ++ t)
      "\x7d -\n\t\t\t\t  kubevirt_vmi_memory_usable_bytes\x7b" = true) := by
  constructor
  · apply strContains_append_right
    apply strContains_append_right
    apply strContains_append_right
    apply strContains_append_right
    decide
  · apply strContains_append_right
    apply strContains_append_right
    apply strContains_append_left
    decide

/-- C1 witness: a conflicting recognized label entry behind an inert entry, at
a concrete input. -/
theorem C1_witness :
    (∃ e, GeneratePrometheusRule
        ⟨⟨⟨[], []⟩, [⟨"label_app", ["x"], []⟩, ⟨"label_env", ["a"], ["b"]⟩], 110⟩, ⟨""⟩⟩ =
      (emptyPrometheusRule, some e)) ∧
    emptyPrometheusRule.Spec.Groups = [] :=
  C1_conflict_error_empty_document
    ⟨⟨⟨[], []⟩, [⟨"label_app", ["x"], []⟩, ⟨"label_env", ["a"], ["b"]⟩], 110⟩, ⟨""⟩⟩
    (Or.inr ⟨[⟨"label_app", ["x"], []⟩], ⟨"label_env", ["a"], ["b"]⟩, [], rfl, rfl,
      by decide, by decide, by decide⟩)

/-! ## Claim C6 -/

/-- C6: on every valid configuration (both filter builders succeed) the
generator emits exactly the four fixed groups, and every record name in them
is a fixed constant independent of the filter content and of the
recommendation percentage. -/
theorem C6_four_groups_stable_names (cfg : RSNamespaceConfigMapData) (nsF lj : String)
    (h1 : BuildNamespaceFilter cfg.PrometheusRuleConfig = (nsF, none))
    (h2 : BuildLabelJoin cfg.PrometheusRuleConfig.LabelFilterCriteria = (lj, none)) :
    (GeneratePrometheusRule cfg).2 = none ∧
    (GeneratePrometheusRule cfg).1.Spec.Groups.map RuleGroup.Name =
      ["acm-vm-right-sizing-namespace-5m.rule", "acm-vm-right-sizing-namespace-1d.rules",
       "acm-vm-right-sizing-cluster-5m.rule", "acm-vm-right-sizing-cluster-1d.rule"] ∧
    (GeneratePrometheusRule cfg).1.Spec.Groups.map (fun g => g.Rules.map Rule.Record) =
      [["acm_rs_vm:namespace:cpu_request:5m", "acm_rs_vm:namespace:memory_request:5m",
        "acm_rs_vm:namespace:cpu_usage:5m", "acm_rs_vm:namespace:memory_usage:5m"],
       ["acm_rs_vm:namespace:cpu_request", "acm_rs_vm:namespace:cpu_usage",
        "acm_rs_vm:namespace:memory_request", "acm_rs_vm:namespace:memory_usage",
        "acm_rs_vm:namespace:cpu_recommendation", "acm_rs_vm:namespace:memory_recommendation"],
       ["acm_rs_vm:cluster:cpu_request:5m", "acm_rs_vm:cluster:cpu_usage:5m",
        "acm_rs_vm:cluster:memory_request:5m", "acm_rs_vm:cluster:memory_usage:5m"],
       ["acm_rs_vm:cluster:cpu_request", "acm_rs_vm:cluster:cpu_usage",
        "acm_rs_vm:cluster:cpu_recommendation", "acm_rs_vm:cluster:memory_request",
        "acm_rs_vm:cluster:memory_usage", "acm_rs_vm:cluster:memory_recommendation"]] := by
  rw [generate_valid_eq cfg nsF lj h1 h2]
  refine ⟨rfl, rfl, ?_⟩
  simp [buildNamespaceRules5m, buildNamespaceRules1d, buildClusterRules5m, buildClusterRules1d,
    ruleHelper, ruleWithLabels]

/-- C6 witness: group names at the default configuration. -/
theorem C6_witness :
    (GeneratePrometheusRule ⟨GetDefaultRSPrometheusRuleConfig, ⟨""⟩⟩).1.Spec.Groups.map
      RuleGroup.Name =
    ["acm-vm-right-sizing-namespace-5m.rule", "acm-vm-right-sizing-namespace-1d.rules",
     "acm-vm-right-sizing-cluster-5m.rule", "acm-vm-right-sizing-cluster-1d.rule"] :=
  (C6_four_groups_stable_names ⟨GetDefaultRSPrometheusRuleConfig, ⟨""⟩⟩
    "namespace!~\"openshift.*\"" "" (by decide) rfl).2.1

/-! ## Claim C10 -/

/-- C10: the generator sets the group interval of the two 5-minute groups to
`5m`, but sets the interval of both 1-day aggregation groups to `15m` — not
one day; only the `max_over_time` windows inside their rule expressions use
`[1d]`. -/
theorem C10_one_day_groups_run_every_15m (cfg : RSNamespaceConfigMapData) (nsF lj : String)
    (h1 : BuildNamespaceFilter cfg.PrometheusRuleConfig = (nsF, none))
    (h2 : BuildLabelJoin cfg.PrometheusRuleConfig.LabelFilterCriteria = (lj, none)) :
    (GeneratePrometheusRule cfg).1.Spec.Groups.map (fun g => (g.Name, g.Interval)) =
      [("acm-vm-right-sizing-namespace-5m.rule", some "5m"),
       ("acm-vm-right-sizing-namespace-1d.rules", some "15m"),
       ("acm-vm-right-sizing-cluster-5m.rule", some "5m"),
       ("acm-vm-right-sizing-cluster-1d.rule", some "15m")] ∧
    (∀ g ∈ (GeneratePrometheusRule cfg).1.Spec.Groups,
      (g.Name = "acm-vm-right-sizing-namespace-1d.rules" ∨
       g.Name = "acm-vm-right-sizing-cluster-1d.rule") →
      g.Interval = some "15m" ∧ ∀ r ∈ g.Rules, strContains r.Expr "[1d]" = true) := by
  rw [generate_valid_eq cfg nsF lj h1 h2]
  refine ⟨rfl, ?_⟩
  intro g hg
  simp only [List.mem_cons, List.not_mem_nil, or_false] at hg
  rcases hg with rfl | rfl | rfl | rfl
  · intro hname
    simp at hname
  · intro _
    refine ⟨rfl, ?_⟩
    intro r hr
    simp only [buildNamespaceRules1d, List.mem_cons, List.not_mem_nil, or_false] at hr
    rcases hr with rfl | rfl | rfl | rfl | rfl | rfl
    · decide
    · decide
    · decide
    · decide
    · show strContains ("max_over_time(acm_rs_vm:namespace:cpu_usage:5m[1d])*(" ++
        toString cfg.PrometheusRuleConfig.RecommendationPercentage ++ "/100)") "[1d]" = true
      apply strContains_append_right
      apply strContains_append_right
      decide
    · show strContains ("max_over_time(acm_rs_vm:namespace:memory_usage:5m[1d])*(" ++
        toString cfg.PrometheusRuleConfig.RecommendationPercentage ++ "/100)") "[1d]" = true
      apply strContains_append_right
      apply strContains_append_right
      decide
  · intro hname
    simp at hname
  · intro _
    refine ⟨rfl, ?_⟩
    intro r hr
    simp only [buildClusterRules1d, List.mem_cons, List.not_mem_nil, or_false] at hr
    rcases hr with rfl | rfl | rfl | rfl | rfl | rfl
    · decide
    · decide
    · show strContains ("max_over_time(acm_rs_vm:cluster:cpu_usage:5m[1d]) * (" ++
        toString cfg.PrometheusRuleConfig.RecommendationPercentage ++ "/100)") "[1d]" = true
      apply strContains_append_right
      apply strContains_append_right
      decide
    · decide
    · decide
    · show strContains ("max_over_time(acm_rs_vm:cluster:memory_usage:5m[1d]) * (" ++
        toString cfg.PrometheusRuleConfig.RecommendationPercentage ++ "/100)") "[1d]" = true
      apply strContains_append_right
      apply strContains_append_right
      decide

/-- C10 witness: the name/interval table at the default configuration. -/
theorem C10_witness :
    (GeneratePrometheusRule ⟨GetDefaultRSPrometheusRuleConfig, ⟨""⟩⟩).1.Spec.Groups.map
      (fun g => (g.Name, g.Interval)) =
    [("acm-vm-right-sizing-namespace-5m.rule", some "5m"),
     ("acm-vm-right-sizing-namespace-1d.rules", some "15m"),
     ("acm-vm-right-sizing-cluster-5m.rule", some "5m"),
     ("acm-vm-right-sizing-cluster-1d.rule", some "15m")] :=
  (C10_one_day_groups_run_every_15m ⟨GetDefaultRSPrometheusRuleConfig, ⟨""⟩⟩
    "namespace!~\"openshift.*\"" "" (by decide) rfl).1

/-! ## Claim C8 -/

/-- C8: each recommendation record multiplies the 1-day usage rollup named in
its record name by `(<percentage>/100)` with the configured percentage integer
printed verbatim into the expression text (never evaluated by the generator);
at percentage 150 the namespace recommendations contain the literal
`*(150/100)` and the cluster recommendations the spaced `* (150/100)`. -/
theorem C8_percentage_verbatim (cfg : RSNamespaceConfigMapData) (nsF lj : String)
    (h1 : BuildNamespaceFilter cfg.PrometheusRuleConfig = (nsF, none))
    (h2 : BuildLabelJoin cfg.PrometheusRuleConfig.LabelFilterCriteria = (lj, none)) :
    (∀ g ∈ (GeneratePrometheusRule cfg).1.Spec.Groups, ∀ r ∈ g.Rules,
      (r.Record = "acm_rs_vm:namespace:cpu_recommendation" →
        r.Expr = "max_over_time(acm_rs_vm:namespace:cpu_usage:5m[1d])*(" ++
          toString cfg.PrometheusRuleConfig.RecommendationPercentage ++ "/100)") ∧
      (r.Record = "acm_rs_vm:namespace:memory_recommendation" →
        r.Expr = "max_over_time(acm_rs_vm:namespace:memory_usage:5m[1d])*(" ++
          toString cfg.PrometheusRuleConfig.RecommendationPercentage ++ "/100)") ∧
      (r.Record = "acm_rs_vm:cluster:cpu_recommendation" →
        r.Expr = "max_over_time(acm_rs_vm:cluster:cpu_usage:5m[1d]) * (" ++
          toString cfg.PrometheusRuleConfig.RecommendationPercentage ++ "/100)") ∧
      (r.Record = "acm_rs_vm:cluster:memory_recommendation" →
        r.Expr = "max_over_time(acm_rs_vm:cluster:memory_usage:5m[1d]) * (" ++
          toString cfg.PrometheusRuleConfig.RecommendationPercentage ++ "/100)")) ∧
    (cfg.PrometheusRuleConfig.RecommendationPercentage = 150 →
      ∀ g ∈ (GeneratePrometheusRule cfg).1.Spec.Groups, ∀ r ∈ g.Rules,
        ((r.Record = "acm_rs_vm:namespace:cpu_recommendation" ∨
          r.Record = "acm_rs_vm:namespace:memory_recommendation") →
          strContains r.Expr "*(150/100)" = true) ∧
        ((r.Record = "acm_rs_vm:cluster:cpu_recommendation" ∨
          r.Record = "acm_rs_vm:cluster:memory_recommendation") →
          strContains r.Expr "* (150/100)" = true)) := by
  rw [generate_valid_eq cfg nsF lj h1 h2]
  constructor
  · intro g hg
    simp only [List.mem_cons, List.not_mem_nil, or_false] at hg
    rcases hg with rfl | rfl | rfl | rfl
    · intro r hr
      simp only [buildNamespaceRules5m, List.mem_cons, List.not_mem_nil, or_false] at hr
      rcases hr with rfl | rfl | rfl | rfl <;>
        refine ⟨fun h => ?_, fun h => ?_, fun h => ?_, fun h => ?_⟩ <;>
        simp [ruleHelper] at h
    · intro r hr
      simp only [buildNamespaceRules1d, List.mem_cons, List.not_mem_nil, or_false] at hr
      rcases hr with rfl | rfl | rfl | rfl | rfl | rfl <;>
        refine ⟨fun h => ?_, fun h => ?_, fun h => ?_, fun h => ?_⟩ <;>
        first
          | rfl
          | simp [ruleWithLabels] at h
    · intro r hr
      simp only [buildClusterRules5m, List.mem_cons, List.not_mem_nil, or_false] at hr
      rcases hr with rfl | rfl | rfl | rfl <;>
        refine ⟨fun h => ?_, fun h => ?_, fun h => ?_, fun h => ?_⟩ <;>
        simp [ruleHelper] at h
    · intro r hr
      simp only [buildClusterRules1d, List.mem_cons, List.not_mem_nil, or_false] at hr
      rcases hr with rfl | rfl | rfl | rfl | rfl | rfl <;>
        refine ⟨fun h => ?_, fun h => ?_, fun h => ?_, fun h => ?_⟩ <;>
        first
          | rfl
          | simp [ruleWithLabels] at h
  · intro hrp
    intro g hg
    simp only [List.mem_cons, List.not_mem_nil, or_false] at hg
    rcases hg with rfl | rfl | rfl | rfl
    · intro r hr
      simp only [buildNamespaceRules5m, List.mem_cons, List.not_mem_nil, or_false] at hr
      rcases hr with rfl | rfl | rfl | rfl <;>
        refine ⟨fun h => ?_, fun h => ?_⟩ <;>
        simp [ruleHelper] at h
    · intro r hr
      simp only [buildNamespaceRules1d, List.mem_cons, List.not_mem_nil, or_false] at hr
      rcases hr with rfl | rfl | rfl | rfl | rfl | rfl <;>
        refine ⟨fun h => ?_, fun h => ?_⟩ <;>
        first
          | (rw [hrp]; decide)
          | simp [ruleWithLabels] at h
    · intro r hr
      simp only [buildClusterRules5m, List.mem_cons, List.not_mem_nil, or_false] at hr
      rcases hr with rfl | rfl | rfl | rfl <;>
        refine ⟨fun h => ?_, fun h => ?_⟩ <;>
        simp [ruleHelper] at h
    · intro r hr
      simp only [buildClusterRules1d, List.mem_cons, List.not_mem_nil, or_false] at hr
      rcases hr with rfl | rfl | rfl | rfl | rfl | rfl <;>
        refine ⟨fun h => ?_, fun h => ?_⟩ <;>
        first
          | (rw [hrp]; decide)
          | simp [ruleWithLabels] at h

/-- C8 witness: at percentage 150 with no filters, the namespace cpu
recommendation record (fifth rule of the second group) contains the
whitespace-free multiplier `*(150/100)`. -/
theorem C8_witness :
    strContains
      ((((GeneratePrometheusRule ⟨⟨⟨[], []⟩, [], 150⟩, ⟨""⟩⟩).1.Spec.Groups.getD 1
          ⟨"", none, []⟩).Rules.getD 4 ⟨"", "", []⟩).Expr)
      "*(150/100)" = true := by
  have h := (C8_percentage_verbatim ⟨⟨⟨[], []⟩, [], 150⟩, ⟨""⟩⟩ "namespace!=\"\"" ""
    (by decide) rfl).2 rfl
  exact (h ((GeneratePrometheusRule ⟨⟨⟨[], []⟩, [], 150⟩, ⟨""⟩⟩).1.Spec.Groups.getD 1
        ⟨"", none, []⟩) (by decide)
      (((GeneratePrometheusRule ⟨⟨⟨[], []⟩, [], 150⟩, ⟨""⟩⟩).1.Spec.Groups.getD 1
          ⟨"", none, []⟩).Rules.getD 4 ⟨"", "", []⟩) (by decide)).1 (by decide)

/-! ## Claim C7 -/

set_option maxRecDepth 8000 in
/-- C7: on every valid configuration the virtualization generator emits 4
records in each 5-minute group and 6 in each 1-day group, with no hard-limit
records; its cpu-request records multiply the three
`kubevirt_vm_resource_requests` sub-dimension series (units cores, sockets,
threads) rather than using the direct CPU-time counter (checked negatively at
the default configuration), and its memory-usage records take the difference
`kubevirt_vmi_memory_available_bytes` minus `kubevirt_vmi_memory_usable_bytes`. -/
theorem C7_vm_variant_record_shape (cfg : RSNamespaceConfigMapData) (nsF lj : String)
    (h1 : BuildNamespaceFilter cfg.PrometheusRuleConfig = (nsF, none))
    (h2 : BuildLabelJoin cfg.PrometheusRuleConfig.LabelFilterCriteria = (lj, none)) :
    (GeneratePrometheusRule cfg).1.Spec.Groups.map (fun g => g.Rules.length) = [4, 6, 4, 6] ∧
    (∀ g ∈ (GeneratePrometheusRule cfg).1.Spec.Groups, ∀ r ∈ g.Rules,
      strContains r.Record "limit" = false) ∧
    (∀ g ∈ (GeneratePrometheusRule cfg).1.Spec.Groups, ∀ r ∈ g.Rules,
      (r.Record = "acm_rs_vm:namespace:cpu_request:5m" ∨
       r.Record = "acm_rs_vm:cluster:cpu_request:5m") →
      strContains r.Expr "kubevirt_vm_resource_requests\x7b" = true ∧
      strContains r.Expr ", unit=\"cores\", resource=\"cpu\"\x7d *" = true ∧
      strContains r.Expr ", unit=\"sockets\", resource=\"cpu\"\x7d *" = true ∧
      strContains r.Expr ", unit=\"threads\", resource=\"cpu\"\x7d)" = true) ∧
    (∀ g ∈ (GeneratePrometheusRule cfg).1.Spec.Groups, ∀ r ∈ g.Rules,
      (r.Record = "acm_rs_vm:namespace:memory_usage:5m" ∨
       r.Record = "acm_rs_vm:cluster:memory_usage:5m") →
      strContains r.Expr "kubevirt_vmi_memory_available_bytes\x7b" = true ∧
      strContains r.Expr "\x7d -\n\t\t\t\t  kubevirt_vmi_memory_usable_bytes\x7b" = true) ∧
    (∀ g ∈ (GeneratePrometheusRule ⟨GetDefaultRSPrometheusRuleConfig, ⟨""⟩⟩).1.Spec.Groups,
      ∀ r ∈ g.Rules,
      (r.Record = "acm_rs_vm:namespace:cpu_request:5m" ∨
       r.Record = "acm_rs_vm:cluster:cpu_request:5m") →
      strContains r.Expr "kubevirt_vmi_cpu_usage_seconds_total" = false) := by
  rw [generate_valid_eq cfg nsF lj h1 h2]
  refine ⟨?_, ?_, ?_, ?_, ?_⟩
  · simp [buildNamespaceRules5m, buildNamespaceRules1d, buildClusterRules5m, buildClusterRules1d]
  · intro g hg
    simp only [List.mem_cons, List.not_mem_nil, or_false] at hg
    rcases hg with rfl | rfl | rfl | rfl
    · intro r hr
      simp only [buildNamespaceRules5m, List.mem_cons, List.not_mem_nil, or_false] at hr
      rcases hr with rfl | rfl | rfl | rfl <;> simp only [ruleHelper] <;> decide
    · intro r hr
      simp only [buildNamespaceRules1d, List.mem_cons, List.not_mem_nil, or_false] at hr
      rcases hr with rfl | rfl | rfl | rfl | rfl | rfl <;> simp only [ruleWithLabels] <;> decide
    · intro r hr
      simp only [buildClusterRules5m, List.mem_cons, List.not_mem_nil, or_false] at hr
      rcases hr with rfl | rfl | rfl | rfl <;> simp only [ruleHelper] <;> decide
    · intro r hr
      simp only [buildClusterRules1d, List.mem_cons, List.not_mem_nil, or_false] at hr
      rcases hr with rfl | rfl | rfl | rfl | rfl | rfl <;> simp only [ruleWithLabels] <;> decide
  · intro g hg
    simp only [List.mem_cons, List.not_mem_nil, or_false] at hg
    rcases hg with rfl | rfl | rfl | rfl
    · intro r hr
      simp only [buildNamespaceRules5m, List.mem_cons, List.not_mem_nil, or_false] at hr
      rcases hr with rfl | rfl | rfl | rfl
      · intro _
        refine ⟨?_, ?_, ?_, ?_⟩
        · exact strContains_ruleHelper _ _ _ _ ((cpuRequestContains nsF _ (by decide)).1)
        · exact strContains_ruleHelper _ _ _ _ ((cpuRequestContains nsF _ (by decide)).2.1)
        · exact strContains_ruleHelper _ _ _ _ ((cpuRequestContains nsF _ (by decide)).2.2.1)
        · exact strContains_ruleHelper _ _ _ _ ((cpuRequestContains nsF _ (by decide)).2.2.2)
      · intro h
        simp [ruleHelper] at h
      · intro h
        simp [ruleHelper] at h
      · intro h
        simp [ruleHelper] at h
    · intro r hr
      simp only [buildNamespaceRules1d, List.mem_cons, List.not_mem_nil, or_false] at hr
      rcases hr with rfl | rfl | rfl | rfl | rfl | rfl <;>
        (intro h; simp [ruleWithLabels] at h)
    · intro r hr
      simp only [buildClusterRules5m, List.mem_cons, List.not_mem_nil, or_false] at hr
      rcases hr with rfl | rfl | rfl | rfl
      · intro _
        refine ⟨?_, ?_, ?_, ?_⟩
        · exact strContains_ruleHelper _ _ _ _ ((cpuRequestContains nsF _ (by decide)).1)
        · exact strContains_ruleHelper _ _ _ _ ((cpuRequestContains nsF _ (by decide)).2.1)
        · exact strContains_ruleHelper _ _ _ _ ((cpuRequestContains nsF _ (by decide)).2.2.1)
        · exact strContains_ruleHelper _ _ _ _ ((cpuRequestContains nsF _ (by decide)).2.2.2)
      · intro h
        simp [ruleHelper] at h
      · intro h
        simp [ruleHelper] at h
      · intro h
        simp [ruleHelper] at h
    · intro r hr
      simp only [buildClusterRules1d, List.mem_cons, List.not_mem_nil, or_false] at hr
      rcases hr with rfl | rfl | rfl | rfl | rfl | rfl <;>
        (intro h; simp [ruleWithLabels] at h)
  · intro g hg
    simp only [List.mem_cons, List.not_mem_nil, or_false] at hg
    rcases hg with rfl | rfl | rfl | rfl
    · intro r hr
      simp only [buildNamespaceRules5m, List.mem_cons, List.not_mem_nil, or_false] at hr
      rcases hr with rfl | rfl | rfl | rfl
      · intro h
        simp [ruleHelper] at h
      · intro h
        simp [ruleHelper] at h
      · intro h
        simp [ruleHelper] at h
      · intro _
        exact ⟨strContains_ruleHelper _ _ _ _ ((memUsageContains nsF _).1),
          strContains_ruleHelper _ _ _ _ ((memUsageContains nsF _).2)⟩
    · intro r hr
      simp only [buildNamespaceRules1d, List.mem_cons, List.not_mem_nil, or_false] at hr
      rcases hr with rfl | rfl | rfl | rfl | rfl | rfl <;>
        (intro h; simp [ruleWithLabels] at h)
    · intro r hr
      simp only [buildClusterRules5m, List.mem_cons, List.not_mem_nil, or_false] at hr
      rcases hr with rfl | rfl | rfl | rfl
      · intro h
        simp [ruleHelper] at h
      · intro h
        simp [ruleHelper] at h
      · intro h
        simp [ruleHelper] at h
      · intro _
        exact ⟨strContains_ruleHelper _ _ _ _ ((memUsageContains nsF _).1),
          strContains_ruleHelper _ _ _ _ ((memUsageContains nsF _).2)⟩
    · intro r hr
      simp only [buildClusterRules1d, List.mem_cons, List.not_mem_nil, or_false] at hr
      rcases hr with rfl | rfl | rfl | rfl | rfl | rfl <;>
        (intro h; simp [ruleWithLabels] at h)
  · decide

/-- C7 witness: the per-group record counts at the default configuration. -/
theorem C7_witness :
    (GeneratePrometheusRule ⟨GetDefaultRSPrometheusRuleConfig, ⟨""⟩⟩).1.Spec.Groups.map
      (fun g => g.Rules.length) = [4, 6, 4, 6] :=
  (C7_vm_variant_record_shape ⟨GetDefaultRSPrometheusRuleConfig, ⟨""⟩⟩
    "namespace!~\"openshift.*\"" "" (by decide) rfl).1

/-! ## Claim C9 -/

/-- C9: a full (non-soft) teardown deletes in this order: the dependent
addon records (ClusterManagementAddOn, then AddOnTemplate) first, then the
Placement, and only after those the configuration record (ConfigMap); a soft
cleanup performs the same deletions but never issues a delete for the
configuration record. -/
theorem C9_cleanup_order (cc : ComponentConfig) (ns cn : String) (st : Store) :
    (CleanupComponentResources cc ns cn true st).2 =
      [⟨"ClusterManagementAddOn", cc.AddonName, ""⟩,
       ⟨"AddOnTemplate", cc.TemplateName, ""⟩,
       ⟨"Placement", cc.PlacementName, ns⟩] ∧
    (CleanupComponentResources cc ns cn false st).2 =
      (CleanupComponentResources cc ns cn true st).2 ++
        [⟨"ConfigMap", cc.ConfigMapName, cn⟩] ∧
    ∀ k ∈ (CleanupComponentResources cc ns cn true st).2, k.kind ≠ "ConfigMap" := by
  refine ⟨by simp [CleanupComponentResources, CleanupRightSizingAddon],
    by simp [CleanupComponentResources, CleanupRightSizingAddon], ?_⟩
  intro k hk
  simp only [CleanupComponentResources, CleanupRightSizingAddon, List.mem_cons,
    List.not_mem_nil, or_false, if_true] at hk
  rcases hk with rfl | rfl | rfl <;> simp

/-- C9 witness: the soft-cleanup delete trace at a concrete component wiring. -/
theorem C9_witness :
    (CleanupComponentResources exampleComponentConfig "ns-a" "cfg-ns" true []).2 =
      [⟨"ClusterManagementAddOn", "observability-rightsizing-virtualization", ""⟩,
       ⟨"AddOnTemplate", "rs-virt-template", ""⟩,
       ⟨"Placement", "rs-virt-placement", "ns-a"⟩] := by
  have h := (C9_cleanup_order exampleComponentConfig "ns-a" "cfg-ns" []).1
  rw [h]
  rfl

/-! ## Helper lemmas: the reconciler -/

/-- The disabled branch of the reconciler in closed form: success, state bound
to the resolved binding and disabled, and a full cleanup of the store keyed by
the previous bound namespace. -/
theorem handle_disabled
    (decode : List (String × String) → Except String RSNamespaceConfigMapData)
    (opts : RightSizingOptions) (cc : ComponentConfig) (state : ComponentState) (st : Store)
    (b0 : String)
    (hsel : (cc.ComponentType = ComponentTypeNamespace ∧ opts.NamespaceEnabled = false ∧
             b0 = opts.NamespaceBinding) ∨
            (cc.ComponentType = ComponentTypeVirtualization ∧ opts.VirtualizationEnabled = false ∧
             b0 = opts.VirtualizationBinding)) :
    HandleComponentRightSizing decode opts cc state st =
      (none, ⟨if b0 = "" then cc.DefaultNamespace else b0, false⟩,
       (CleanupComponentResources cc state.Namespace opts.ConfigNamespace false st).1,
       (CleanupComponentResources cc state.Namespace opts.ConfigNamespace false st).2) := by
  rcases hsel with ⟨hct, hen, hb⟩ | ⟨hct, hen, hb⟩ <;> subst hb <;>
    simp [HandleComponentRightSizing, hct, hen, ComponentTypeNamespace,
      ComponentTypeVirtualization, CleanupComponentResources, CleanupRightSizingAddon]

/-- After a full cleanup, all four cleaned keys are absent from the store. -/
theorem cleanupFull_absent (cc : ComponentConfig) (ns cn : String) (st : Store) :
    storeGet (CleanupComponentResources cc ns cn false st).1
      ⟨"ClusterManagementAddOn", cc.AddonName, ""⟩ = none ∧
    storeGet (CleanupComponentResources cc ns cn false st).1
      ⟨"AddOnTemplate", cc.TemplateName, ""⟩ = none ∧
    storeGet (CleanupComponentResources cc ns cn false st).1
      ⟨"Placement", cc.PlacementName, ns⟩ = none ∧
    storeGet (CleanupComponentResources cc ns cn false st).1
      ⟨"ConfigMap", cc.ConfigMapName, cn⟩ = none := by
  refine ⟨?_, ?_, ?_, ?_⟩ <;>
    simp [CleanupComponentResources, CleanupRightSizingAddon, storeGet_storeDelete]

/-- A full cleanup whose four keys are already absent leaves the store
unchanged (repeated deletes are no-ops). -/
theorem cleanupFull_noop (cc : ComponentConfig) (ns cn : String) (st : Store)
    (h1 : storeGet st ⟨"ClusterManagementAddOn", cc.AddonName, ""⟩ = none)
    (h2 : storeGet st ⟨"AddOnTemplate", cc.TemplateName, ""⟩ = none)
    (h3 : storeGet st ⟨"Placement", cc.PlacementName, ns⟩ = none)
    (h4 : storeGet st ⟨"ConfigMap", cc.ConfigMapName, cn⟩ = none) :
    (CleanupComponentResources cc ns cn false st).1 = st := by
  simp only [CleanupComponentResources, CleanupRightSizingAddon]
  rw [storeDelete_absent _ _ h1, storeDelete_absent _ _ h2, storeDelete_absent _ _ h3]
  simpa using storeDelete_absent _ _ h4

/-! ## Claim C3 -/

/-- C3: with a known component type whose desired-enabled flag is false, the
reconciler performs a full cleanup (dependent resources and the configuration
record) keyed by the namespace currently held in state — not the newly
resolved binding — then sets the state to the resolved binding with enabled
false, and returns success; and a repeated call in the resulting disabled
state succeeds again, leaves the state unchanged, and (the cleaned keys being
absent) leaves the store unchanged: not-found deletes are not errors. -/
theorem C3_disable_cleanup_idempotent
    (decode : List (String × String) → Except String RSNamespaceConfigMapData)
    (opts : RightSizingOptions) (cc : ComponentConfig) (state : ComponentState) (st : Store)
    (b0 : String)
    (hsel : (cc.ComponentType = ComponentTypeNamespace ∧ opts.NamespaceEnabled = false ∧
             b0 = opts.NamespaceBinding) ∨
            (cc.ComponentType = ComponentTypeVirtualization ∧ opts.VirtualizationEnabled = false ∧
             b0 = opts.VirtualizationBinding)) :
    HandleComponentRightSizing decode opts cc state st =
      (none, ⟨if b0 = "" then cc.DefaultNamespace else b0, false⟩,
       (CleanupComponentResources cc state.Namespace opts.ConfigNamespace false st).1,
       [⟨"ClusterManagementAddOn", cc.AddonName, ""⟩,
        ⟨"AddOnTemplate", cc.TemplateName, ""⟩,
        ⟨"Placement", cc.PlacementName, state.Namespace⟩,
        ⟨"ConfigMap", cc.ConfigMapName, opts.ConfigNamespace⟩]) ∧
    (HandleComponentRightSizing decode opts cc
        ⟨if b0 = "" then cc.DefaultNamespace else b0, false⟩
        (CleanupComponentResources cc state.Namespace opts.ConfigNamespace false st).1).1 =
      none ∧
    (HandleComponentRightSizing decode opts cc
        ⟨if b0 = "" then cc.DefaultNamespace else b0, false⟩
        (CleanupComponentResources cc state.Namespace opts.ConfigNamespace false st).1).2.1 =
      ⟨if b0 = "" then cc.DefaultNamespace else b0, false⟩ ∧
    (storeGet (CleanupComponentResources cc state.Namespace opts.ConfigNamespace false st).1
        ⟨"Placement", cc.PlacementName, if b0 = "" then cc.DefaultNamespace else b0⟩ = none →
      (HandleComponentRightSizing decode opts cc
          ⟨if b0 = "" then cc.DefaultNamespace else b0, false⟩
          (CleanupComponentResources cc state.Namespace opts.ConfigNamespace false st).1).2.2.1 =
        (CleanupComponentResources cc state.Namespace opts.ConfigNamespace false st).1) := by
  have habs := cleanupFull_absent cc state.Namespace opts.ConfigNamespace st
  have hsecond := handle_disabled decode opts cc
    ⟨if b0 = "" then cc.DefaultNamespace else b0, false⟩
    (CleanupComponentResources cc state.Namespace opts.ConfigNamespace false st).1 b0 hsel
  refine ⟨?_, ?_, ?_, ?_⟩
  · rw [handle_disabled decode opts cc state st b0 hsel]
    simp [CleanupComponentResources, CleanupRightSizingAddon]
  · rw [hsecond]
  · rw [hsecond]
  · intro hp
    rw [hsecond]
    exact cleanupFull_noop cc _ opts.ConfigNamespace _ habs.1 habs.2.1 hp habs.2.2.2

/-- C3 witness: disabling the virtualization component on a store holding all
four resources deletes them, binds the state to the explicit binding, and a
second call is a successful no-op. -/
theorem C3_witness :
    HandleComponentRightSizing exampleDecode
      ⟨false, "", false, "ns-b", "cfg-ns"⟩ exampleComponentConfig ⟨"ns-a", true⟩
      [(⟨"ClusterManagementAddOn", "observability-rightsizing-virtualization", ""⟩, []),
       (⟨"AddOnTemplate", "rs-virt-template", ""⟩, []),
       (⟨"Placement", "rs-virt-placement", "ns-a"⟩, []),
       (⟨"ConfigMap", "rs-virt-config", "cfg-ns"⟩, [("prometheusRuleConfig", "x")])] =
      (none, ⟨"ns-b", false⟩, [],
       [⟨"ClusterManagementAddOn", "observability-rightsizing-virtualization", ""⟩,
        ⟨"AddOnTemplate", "rs-virt-template", ""⟩,
        ⟨"Placement", "rs-virt-placement", "ns-a"⟩,
        ⟨"ConfigMap", "rs-virt-config", "cfg-ns"⟩]) := by
  have h := (C3_disable_cleanup_idempotent exampleDecode
    ⟨false, "", false, "ns-b", "cfg-ns"⟩ exampleComponentConfig ⟨"ns-a", true⟩
    [(⟨"ClusterManagementAddOn", "observability-rightsizing-virtualization", ""⟩, []),
     (⟨"AddOnTemplate", "rs-virt-template", ""⟩, []),
     (⟨"Placement", "rs-virt-placement", "ns-a"⟩, []),
     (⟨"ConfigMap", "rs-virt-config", "cfg-ns"⟩, [("prometheusRuleConfig", "x")])]
    "ns-b" (Or.inr ⟨rfl, rfl, rfl⟩)).1
  rw [h]
  rfl

/-- A soft cleanup does not change any ConfigMap-kind key of the store. -/
theorem cleanupSoft_get (cc : ComponentConfig) (ns2 cn2 : String) (st2 : Store) (q : ResKey)
    (hq : q.kind = "ConfigMap") :
    storeGet (CleanupComponentResources cc ns2 cn2 true st2).1 q = storeGet st2 q := by
  have h1 : ¬ q = ⟨"ClusterManagementAddOn", cc.AddonName, ""⟩ := by
    intro h
    rw [h] at hq
    simp at hq
  have h2 : ¬ q = ⟨"AddOnTemplate", cc.TemplateName, ""⟩ := by
    intro h
    rw [h] at hq
    simp at hq
  have h3 : ¬ q = ⟨"Placement", cc.PlacementName, ns2⟩ := by
    intro h
    rw [h] at hq
    simp at hq
  simp [CleanupComponentResources, CleanupRightSizingAddon, storeGet_storeDelete, h1, h2, h3]

/-- The delete trace of a soft cleanup, in closed form: no ConfigMap key. -/
theorem cleanupSoft_trace (cc : ComponentConfig) (ns2 cn2 : String) (st2 : Store) :
    (CleanupComponentResources cc ns2 cn2 true st2).2 =
      [⟨"ClusterManagementAddOn", cc.AddonName, ""⟩,
       ⟨"AddOnTemplate", cc.TemplateName, ""⟩,
       ⟨"Placement", cc.PlacementName, ns2⟩] := by
  simp [CleanupComponentResources, CleanupRightSizingAddon]

/-! ## Claim C4 -/

/-- C4: when the component is already enabled and the resolved desired binding
differs from the state binding, the reconciler runs a soft cleanup of the
previous binding (placement and addon records only): the delete trace names no
ConfigMap, the soft cleanup preserves every ConfigMap-kind store entry, and
over the whole reconciliation the configuration record content is unchanged
(given that the apply callback does not touch it, as the component wirings do
not). -/
theorem C4_rebind_preserves_config_record
    (decode : List (String × String) → Except String RSNamespaceConfigMapData)
    (opts : RightSizingOptions) (cc : ComponentConfig) (state : ComponentState) (st : Store)
    (b0 : String) (d0 : List (String × String))
    (hsel : (cc.ComponentType = ComponentTypeNamespace ∧ opts.NamespaceEnabled = true ∧
             b0 = opts.NamespaceBinding) ∨
            (cc.ComponentType = ComponentTypeVirtualization ∧ opts.VirtualizationEnabled = true ∧
             b0 = opts.VirtualizationBinding))
    (hen : state.Enabled = true)
    (hne : state.Namespace ≠ (if b0 = "" then cc.DefaultNamespace else b0))
    (hcm : storeGet st ⟨"ConfigMap", cc.ConfigMapName, opts.ConfigNamespace⟩ = some d0)
    (happly : ∀ d s, storeGet ((cc.ApplyChangesFunc d s).2)
        ⟨"ConfigMap", cc.ConfigMapName, opts.ConfigNamespace⟩ =
      storeGet s ⟨"ConfigMap", cc.ConfigMapName, opts.ConfigNamespace⟩) :
    (HandleComponentRightSizing decode opts cc state st).2.2.2 =
      [⟨"ClusterManagementAddOn", cc.AddonName, ""⟩,
       ⟨"AddOnTemplate", cc.TemplateName, ""⟩,
       ⟨"Placement", cc.PlacementName, state.Namespace⟩] ∧
    (∀ k ∈ (HandleComponentRightSizing decode opts cc state st).2.2.2, k.kind ≠ "ConfigMap") ∧
    storeGet (HandleComponentRightSizing decode opts cc state st).2.2.1
      ⟨"ConfigMap", cc.ConfigMapName, opts.ConfigNamespace⟩ = some d0 ∧
    (∀ ns2 cn2 st2 k, k.kind = "ConfigMap" →
      storeGet (CleanupComponentResources cc ns2 cn2 true st2).1 k = storeGet st2 k ∧
      k ∉ (CleanupComponentResources cc ns2 cn2 true st2).2) := by
  have hgeneral : ∀ ns2 cn2 st2 k, k.kind = "ConfigMap" →
      storeGet (CleanupComponentResources cc ns2 cn2 true st2).1 k = storeGet st2 k ∧
      k ∉ (CleanupComponentResources cc ns2 cn2 true st2).2 := by
    intro ns2 cn2 st2 k hk
    refine ⟨cleanupSoft_get cc ns2 cn2 st2 k hk, ?_⟩
    rw [cleanupSoft_trace]
    intro hmem
    simp only [List.mem_cons, List.not_mem_nil, or_false] at hmem
    rcases hmem with rfl | rfl | rfl <;> simp at hk
  have hsoftget : storeGet
      (CleanupComponentResources cc state.Namespace opts.ConfigNamespace true st).1
      ⟨"ConfigMap", cc.ConfigMapName, opts.ConfigNamespace⟩ = some d0 := by
    rw [cleanupSoft_get cc _ _ st _ rfl]
    exact hcm
  have hH : (HandleComponentRightSizing decode opts cc state st).2.2.2 =
        (CleanupComponentResources cc state.Namespace opts.ConfigNamespace true st).2 ∧
      storeGet (HandleComponentRightSizing decode opts cc state st).2.2.1
        ⟨"ConfigMap", cc.ConfigMapName, opts.ConfigNamespace⟩ = some d0 := by
    rcases hdec : decode d0 with e | cd
    · rcases hsel with ⟨hct, hE, hb⟩ | ⟨hct, hE, hb⟩ <;> subst hb <;>
        simp [HandleComponentRightSizing, hct, hE, ComponentTypeNamespace,
          ComponentTypeVirtualization, EnsureRSConfigMapExists, hcm, hne, hen,
          hsoftget, hdec]
    · rcases happ : cc.ApplyChangesFunc cd
          (CleanupComponentResources cc state.Namespace opts.ConfigNamespace true st).1
        with ⟨oe, st3⟩
      have hst3 : storeGet st3 ⟨"ConfigMap", cc.ConfigMapName, opts.ConfigNamespace⟩ =
          some d0 := by
        have := happly cd
          (CleanupComponentResources cc state.Namespace opts.ConfigNamespace true st).1
        rw [happ] at this
        simpa [hsoftget] using this
      rcases hsel with ⟨hct, hE, hb⟩ | ⟨hct, hE, hb⟩ <;> subst hb <;>
        rcases oe with _ | e <;>
        simp [HandleComponentRightSizing, hct, hE, ComponentTypeNamespace,
          ComponentTypeVirtualization, EnsureRSConfigMapExists, hcm, hne, hen,
          hsoftget, hdec, happ, hst3]
  refine ⟨?_, ?_, hH.2, hgeneral⟩
  · rw [hH.1, cleanupSoft_trace]
  · intro k hk
    rw [hH.1] at hk
    exact fun hkind => absurd hk ((hgeneral state.Namespace opts.ConfigNamespace st k hkind).2)

/-- C4 witness: a concrete rebind of the virtualization component from `ns-a`
to `ns-new`; the delete trace targets only the previous binding's addon and
placement records. -/
theorem C4_witness :
    (HandleComponentRightSizing exampleDecode ⟨false, "", true, "ns-new", "cfg-ns"⟩
      exampleComponentConfig ⟨"ns-a", true⟩
      [(⟨"ConfigMap", "rs-virt-config", "cfg-ns"⟩, [("k", "v")])]).2.2.2 =
      [⟨"ClusterManagementAddOn", "observability-rightsizing-virtualization", ""⟩,
       ⟨"AddOnTemplate", "rs-virt-template", ""⟩,
       ⟨"Placement", "rs-virt-placement", "ns-a"⟩] := by
  have h := (C4_rebind_preserves_config_record exampleDecode
    ⟨false, "", true, "ns-new", "cfg-ns"⟩ exampleComponentConfig ⟨"ns-a", true⟩
    [(⟨"ConfigMap", "rs-virt-config", "cfg-ns"⟩, [("k", "v")])] "ns-new" [("k", "v")]
    (Or.inr ⟨rfl, rfl, rfl⟩) rfl (by decide) (by decide) (fun _ _ => rfl)).1
  rw [h]
  rfl

end RightSizing
